import Mathlib

/-!
Shallow embedding of the compute-endpoint lifecycle controller
(`control_plane/src/endpoint.rs`) and the token service
(`libs/utils/src/auth.rs`) of this repository, together with theorems
settling the specification claims about them.

Machine integers are modelled as `Nat` (ports, identifiers, byte values);
fallible Rust functions returning `anyhow::Result` are modelled as
`Except String`; the filesystem / network observables that a call reads
are passed in explicitly as values.
-/

namespace Neon

/-! ## Token service data model (`libs/utils/src/auth.rs`) -/

/-- Access-claims scope, embedded from `enum Scope` in `auth.rs`. -/
inductive Scope where
  | Tenant
  | TenantEndpoint
  | PageServerApi
  | SafekeeperData
  | GenerationsApi
  | Admin
  | Infra
  | Scrubber
  | ControllerPeer
deriving DecidableEq

/-- JWT payload, embedded from `struct Claims` in `auth.rs`.
`TenantId` and `Uuid` are modelled as `Nat`. -/
structure Claims where
  tenant_id : Option Nat
  endpoint_id : Option Nat
  scope : Scope
deriving DecidableEq

/-- Authentication error, embedded from `struct AuthError` in `auth.rs`
(a wrapper around an error message). -/
structure AuthError where
  msg : String
deriving DecidableEq

/-- Signature algorithm tag of the jsonwebtoken library. Only `EdDSA` is
used by the source (`STORAGE_TOKEN_ALGORITHM`); a second tag keeps the
algorithm check non-trivial. -/
inductive Alg where
  | EdDSA
  | RS256
deriving DecidableEq

/-- Compact signed token. Modelled from the contract of the external
`jsonwebtoken` library: a token records the header algorithm, the claims
payload, and the identity of the key pair whose private half signed it
(key pairs are identified by a `Nat`; the EdDSA signature verifies exactly
under the public half of the same pair). -/
structure TokenM where
  alg : Alg
  claims : Claims
  signed_by : Nat
deriving DecidableEq

/-- Embedded from `encode_from_key_file` in `auth.rs`: signs the claims
with `Header::new(EdDSA)` using the private key taken from the PEM file. -/
def encode_from_key_file (claims : Claims) (priv_key : Nat) : TokenM :=
  { alg := Alg.EdDSA, claims := claims, signed_by := priv_key }

/-- Modelled from the contract of the external `jsonwebtoken` library's
`decode` function: decoding succeeds iff the token's algorithm is among the
validation's allowed algorithms and the signature verifies under the given
public key (i.e. the key is the public half of the signing pair). The
source sets `required_spec_claims = []`, so no expiry claim is required;
the token model accordingly carries none. -/
def jsonwebtoken_decode (validation_algorithms : List Alg) (token : TokenM)
    (key : Nat) : Except String Claims :=
  if token.alg ∈ validation_algorithms then
    if token.signed_by = key then Except.ok token.claims
    else Except.error "InvalidSignature"
  else Except.error "InvalidAlgorithm"

/-- Embedded from the loop body of `JwtAuth::decode` in `auth.rs`:
try each decoding key in order; return on the first success; after the
loop, `res` holds the last attempted decode, whose error is returned
(mapped to `AuthError` via `to_string`); with no keys at all the fixed
"no JWT decoding keys configured" error is returned. The per-key decode
is a parameter so the loop is stated once for any decoder. -/
def jwtDecodeLoop {D : Type} (dec : Nat → Except String D) :
    List Nat → Except AuthError D
  | [] => Except.error ⟨"no JWT decoding keys configured"⟩
  | k :: ks =>
    match dec k with
    | Except.ok d => Except.ok d
    | Except.error e =>
      match ks with
      | [] => Except.error ⟨e⟩
      | _ :: _ => jwtDecodeLoop dec ks

/-- Embedded from `struct JwtAuth` in `auth.rs`: a list of decoding keys
plus the validation settings (allowed algorithms). -/
structure JwtAuthM where
  decoding_keys : List Nat
  validation_algorithms : List Alg
deriving DecidableEq

/-- Embedded from `JwtAuth::new`: sets `validation.algorithms = [EdDSA]`
and requires no expiry claim. -/
def JwtAuthM.new (decoding_keys : List Nat) : JwtAuthM :=
  { decoding_keys := decoding_keys, validation_algorithms := [Alg.EdDSA] }

/-- Embedded from `JwtAuth::decode` in `auth.rs`, instantiating the key
loop with the jsonwebtoken decode of this auth object's validation. -/
def JwtAuthM.decode (auth : JwtAuthM) (token : TokenM) : Except AuthError Claims :=
  jwtDecodeLoop (fun k => jsonwebtoken_decode auth.validation_algorithms token k)
    auth.decoding_keys

/-- Embedded from `deserialize_empty_string_as_none_uuid` in `auth.rs`.
The UUID text parser of the external `uuid` crate is a parameter
(`parse_uuid`); `Some("")` maps to `None`, any other string must parse. -/
def deserialize_empty_string_as_none_uuid (parse_uuid : String → Option Nat)
    (opt : Option String) : Except String (Option Nat) :=
  match opt with
  | some s =>
    if s = "" then Except.ok none
    else
      match parse_uuid s with
      | some u => Except.ok (some u)
      | none => Except.error "invalid uuid"
  | none => Except.ok none

/-- Wire shape of a claims document before field decoding: `tenant_id`
defaults to `none` when absent, `endpoint_id` arrives as an optional raw
string (decoded by `deserialize_empty_string_as_none_uuid`), `scope` is
required. -/
structure ClaimsWire where
  tenant_id : Option Nat
  endpoint_id : Option String
  scope : Option Scope
deriving DecidableEq

/-- Deserialization of `Claims` from its wire shape, embedded from the
serde attributes on `struct Claims` in `auth.rs`: a failure of the custom
`endpoint_id` field deserializer fails the whole document; a missing
`scope` fails; a missing `tenant_id` or `endpoint_id` defaults to `none`. -/
def deserializeClaims (parse_uuid : String → Option Nat) (w : ClaimsWire) :
    Except String Claims :=
  match w.scope with
  | none => Except.error "missing field scope"
  | some sc =>
    match deserialize_empty_string_as_none_uuid parse_uuid w.endpoint_id with
    | Except.error e => Except.error e
    | Except.ok ep =>
      Except.ok { tenant_id := w.tenant_id, endpoint_id := ep, scope := sc }

/-! ## Endpoint data model (`control_plane/src/endpoint.rs`) -/

/-- Embedded from `enum EndpointStatus` in `endpoint.rs`. -/
inductive EndpointStatus where
  | Running
  | Stopped
  | Crashed
  | RunningNoPidfile
deriving DecidableEq

/-- Embedded from the `match (has_pidfile, can_connect)` expression of
`Endpoint::status` in `endpoint.rs`. The two arguments are the per-call
observables: whether `pgdata/postmaster.pid` exists on disk, and whether
a TCP connect to the endpoint's data address succeeds within 300ms. -/
def status_of_observables (has_pidfile can_connect : Bool) : EndpointStatus :=
  match has_pidfile, can_connect with
  | true, true => EndpointStatus.Running
  | false, false => EndpointStatus.Stopped
  | true, false => EndpointStatus.Crashed
  | false, true => EndpointStatus.RunningNoPidfile

/-- Embedded from `enum ComputeMode` (re-exported from `compute_api`):
`Primary`, `Static(lsn)` or `Replica`; the LSN is modelled as `Nat`. -/
inductive ComputeMode where
  | Primary
  | Static (lsn : Nat)
  | Replica
deriving DecidableEq

/-- Embedded from `struct Endpoint` in `endpoint.rs`, restricted to the
fields the claims touch. Socket addresses are modelled by their ports.
`has_pidfile` and `can_connect` are the current values of the two
filesystem/network observables that `Endpoint::status` reads on each
call (the source reads them fresh every time and stores no status). -/
structure Endpoint where
  endpoint_id : String
  tenant_id : Nat
  timeline_id : Nat
  mode : ComputeMode
  pg_port : Nat
  external_http_port : Nat
  internal_http_port : Nat
  has_pidfile : Bool
  can_connect : Bool
deriving DecidableEq

/-- Embedded from `Endpoint::status` in `endpoint.rs`: derives the status
from the two observables; nothing is cached. -/
def Endpoint.status (ep : Endpoint) : EndpointStatus :=
  status_of_observables ep.has_pidfile ep.can_connect

/-- Embedded from `struct ComputeControlPlane` in `endpoint.rs`: the base
port and the endpoint registry (a `BTreeMap` keyed by endpoint id,
modelled as an association list). -/
structure ComputeControlPlane where
  base_port : Nat
  endpoints : List (String × Endpoint)
deriving DecidableEq

/-- Embedded from `ComputeControlPlane::get_port` in `endpoint.rs`:
one plus the maximum over all endpoints of the larger of the data port
and the external HTTP port, the maximum defaulting to `base_port` when
the registry is empty. -/
def get_port (cp : ComputeControlPlane) : Nat :=
  1 + ((cp.endpoints.map
        (fun kv => max kv.2.pg_port kv.2.external_http_port)).max?.getD
        cp.base_port)

/-- Conflict predicate from the filter inside
`ComputeControlPlane::check_conflicting_endpoints`: same tenant, same
timeline, same mode, and current status not `Stopped`. -/
def isConflicting (tenant_id timeline_id : Nat) (mode : ComputeMode)
    (kv : String × Endpoint) : Bool :=
  decide (kv.2.tenant_id = tenant_id) && decide (kv.2.timeline_id = timeline_id)
    && decide (kv.2.mode = mode)
    && !(decide (kv.2.status = EndpointStatus.Stopped))

/-- Embedded from `ComputeControlPlane::check_conflicting_endpoints` in
`endpoint.rs`: only for `Primary` mode, fail if any registered endpoint
matches the conflict predicate. -/
def check_conflicting_endpoints (cp : ComputeControlPlane) (mode : ComputeMode)
    (tenant_id timeline_id : Nat) : Except String Unit :=
  if mode = ComputeMode.Primary then
    match cp.endpoints.find? (isConflicting tenant_id timeline_id mode) with
    | some _ =>
      Except.error "attempting to create a duplicate primary endpoint"
    | none => Except.ok ()
  else Except.ok ()

/-- Insertion into the registry map, with `BTreeMap::insert` semantics:
replace the value at an existing key, otherwise add the binding. -/
def btreeInsert (k : String) (v : Endpoint) :
    List (String × Endpoint) → List (String × Endpoint)
  | [] => [(k, v)]
  | kv :: rest =>
    if kv.1 = k then (k, v) :: rest else kv :: btreeInsert k v rest

/-- Embedded from `ComputeControlPlane::new_endpoint` in `endpoint.rs`,
restricted to the modelled fields and the default port-allocation path
(caller passes no explicit ports): allocate the data and external HTTP
ports from `get_port`, the internal one adjacent, build the endpoint
record, persist it and register it in the map. A freshly created endpoint
has no pidfile and nothing listening on its port. -/
def new_endpoint (cp : ComputeControlPlane) (endpoint_id : String)
    (tenant_id timeline_id : Nat) (mode : ComputeMode) : ComputeControlPlane :=
  let pg_port := get_port cp
  let external_http_port := get_port cp + 1
  let internal_http_port := external_http_port + 1
  let ep : Endpoint :=
    { endpoint_id := endpoint_id, tenant_id := tenant_id,
      timeline_id := timeline_id, mode := mode, pg_port := pg_port,
      external_http_port := external_http_port,
      internal_http_port := internal_http_port,
      has_pidfile := false, can_connect := false }
  { cp with endpoints := btreeInsert endpoint_id ep cp.endpoints }

/-- Modelled from the spec: §4.4 `create` — the CLI caller (outside
`src/`) invokes `check_conflicting_endpoints` and only then
`new_endpoint`; both callees are embedded from `endpoint.rs` above. -/
def create_endpoint (cp : ComputeControlPlane) (endpoint_id : String)
    (tenant_id timeline_id : Nat) (mode : ComputeMode) :
    Except String ComputeControlPlane :=
  match check_conflicting_endpoints cp mode tenant_id timeline_id with
  | Except.error e => Except.error e
  | Except.ok _ => Except.ok (new_endpoint cp endpoint_id tenant_id timeline_id mode)

/-! ## Safekeeper (WAL source) connection strings -/

/-- One safekeeper node known to the environment. Modelled from the spec:
`LocalEnv`'s safekeeper configuration (outside `src/`) exposes a node id
and, via `get_compute_port`, the port computes connect to. -/
structure SafekeeperNode where
  id : Nat
  compute_port : Nat
deriving DecidableEq

/-- Embedded from the `for sk_id in sk_ids` loop of
`Endpoint::build_safekeepers_connstrs` in `endpoint.rs`: look up each
requested node id among the known safekeepers (first match), failing if
absent, and emit `127.0.0.1:{port}` in request order. -/
def safekeeperLoop (env_safekeepers : List SafekeeperNode) :
    List Nat → Except String (List String)
  | [] => Except.ok []
  | sk_id :: rest =>
    match env_safekeepers.find? (fun node => decide (node.id = sk_id)) with
    | none => Except.error "safekeeper does not exist"
    | some sk =>
      match safekeeperLoop env_safekeepers rest with
      | Except.error e => Except.error e
      | Except.ok conns =>
        Except.ok (("127.0.0.1:" ++ toString sk.compute_port) :: conns)

/-- Embedded from `Endpoint::build_safekeepers_connstrs` in `endpoint.rs`:
only a `Primary` endpoint resolves the requested ids; every other mode
returns the empty list without looking at them. -/
def build_safekeepers_connstrs (mode : ComputeMode)
    (env_safekeepers : List SafekeeperNode) (sk_ids : List Nat) :
    Except String (List String) :=
  if mode = ComputeMode.Primary then safekeeperLoop env_safekeepers sk_ids
  else Except.ok []

/-! ## Storage topology (`PageserverConnectionInfo`) -/

/-- Shard count of a tenant. -/
structure ShardCount where
  val : Nat
deriving DecidableEq

/-- Modelled from the spec: the repository's `ShardCount::count`
(`utils::shard`, outside `src/`) treats the value zero as "unsharded",
counting as a single shard. -/
def ShardCount.count (c : ShardCount) : Nat :=
  if c.val = 0 then 1 else c.val

/-- Shard key: a shard count together with a shard number, embedded from
`utils::shard::ShardIndex` as used in `endpoint.rs`. -/
structure ShardIndex where
  shard_count : ShardCount
  shard_number : Nat
deriving DecidableEq

/-- Protocol preference flag of the topology. -/
inductive PageserverProtocol where
  | Libpq
  | Grpc
deriving DecidableEq

/-- Embedded from `PageserverShardConnectionInfo`: one replica connection
descriptor, optionally exposing a legacy-protocol (libpq) URL and/or a
gRPC URL, tagged with a node id. -/
structure PageserverShardConnectionInfo where
  id : Option Nat
  libpq_url : Option String
  grpc_url : Option String
deriving DecidableEq

/-- Embedded from `PageserverShardInfo`: the ordered replica list of one
shard. -/
structure PageserverShardInfo where
  pageservers : List PageserverShardConnectionInfo
deriving DecidableEq

/-- Embedded from `PageserverConnectionInfo`: the storage topology given
to one process invocation. The shard map is modelled as an association
list keyed by `ShardIndex`. -/
structure PageserverConnectionInfo where
  shard_count : ShardCount
  stripe_size : Option Nat
  shards : List (ShardIndex × PageserverShardInfo)
  prefer_protocol : PageserverProtocol
deriving DecidableEq

/-- Number of shards the legacy-connstring closure iterates over:
`pageserver_conninfo.shard_count.count()`. -/
def numShards (info : PageserverConnectionInfo) : Nat :=
  info.shard_count.count

/-- Lookup of one shard in the topology map, as done by
`info.shards.get(&ShardIndex { shard_count, shard_number })`. -/
def lookupShard (info : PageserverConnectionInfo) (shard_number : Nat) :
    Option PageserverShardInfo :=
  (info.shards.find? (fun kv =>
      decide (kv.1 = ShardIndex.mk info.shard_count shard_number))).map
    (fun kv => kv.2)

/-- First listed replica of a shard, when the shard exists:
`shard.pageservers.first()`. -/
def firstPageserver (info : PageserverConnectionInfo) (shard_number : Nat) :
    Option PageserverShardConnectionInfo :=
  (lookupShard info shard_number).bind (fun s => s.pageservers.head?)

/-- Legacy-protocol URL of the first listed replica of a shard, when both
exist. -/
def firstLibpq (info : PageserverConnectionInfo) (shard_number : Nat) :
    Option String :=
  (firstPageserver info shard_number).bind (fun ps => ps.libpq_url)

/-- Embedded from the body of the `pageserver_connstring` closure in
`Endpoint::start` (`endpoint.rs`): walk the given shard numbers in order;
a missing shard or an empty replica list is an error; a first replica
without a libpq URL aborts the whole computation with `none`; otherwise
collect the URLs in order. -/
def collectShardUrls (info : PageserverConnectionInfo) :
    List Nat → Except String (Option (List String))
  | [] => Except.ok (some [])
  | shard_no :: rest =>
    match lookupShard info shard_no with
    | none => Except.error "shard not found in pageserver_connection_info"
    | some shard =>
      match shard.pageservers.head? with
      | none => Except.error "must have at least one pageserver"
      | some pageserver =>
        match pageserver.libpq_url with
        | none => Except.ok none
        | some url =>
          match collectShardUrls info rest with
          | Except.error e => Except.error e
          | Except.ok none => Except.ok none
          | Except.ok (some urls) => Except.ok (some (url :: urls))

/-- Embedded from the `pageserver_connstring` closure in `Endpoint::start`:
iterate shard numbers `0 .. num_shards`, then join the collected per-shard
URLs with commas. -/
def pageserver_connstring (info : PageserverConnectionInfo) :
    Except String (Option String) :=
  match collectShardUrls info (List.range (numShards info)) with
  | Except.error e => Except.error e
  | Except.ok none => Except.ok none
  | Except.ok (some urls) => Except.ok (some (String.intercalate "," urls))

/-! ## Reconfigure (`Endpoint::reconfigure`) -/

/-- Embedded from `ComputeSpec`, restricted to the fields
`Endpoint::reconfigure` reads or writes. -/
structure ComputeSpecM where
  cluster_postgresql_conf : Option String
  pageserver_connection_info : Option PageserverConnectionInfo
  shard_stripe_size : Option Nat
  safekeeper_connstrings : List String
  safekeepers_generation : Option Nat
deriving DecidableEq

/-- Persisted per-endpoint state read by `Endpoint::reconfigure`: the spec
inside `config.json` and the current `postgresql.conf` text. -/
structure EndpointDisk where
  config_spec : ComputeSpecM
  postgresql_conf : String
deriving DecidableEq

/-- Safekeeper step of `Endpoint::reconfigure`: when a safekeeper list is
supplied, resolve it (which may fail) and replace the connstrings, and
replace the generation only when one is also supplied; when the list is
omitted, leave both untouched. -/
def reconfigure_safekeepers_step (mode : ComputeMode)
    (env_safekeepers : List SafekeeperNode) (spec : ComputeSpecM)
    (safekeepers : Option (List Nat)) (safekeeper_generation : Option Nat) :
    Except String ComputeSpecM :=
  match safekeepers with
  | none => Except.ok spec
  | some sks =>
    match build_safekeepers_connstrs mode env_safekeepers sks with
    | Except.error e => Except.error e
    | Except.ok conns =>
      let spec := { spec with safekeeper_connstrings := conns }
      Except.ok
        (match safekeeper_generation with
         | some g => { spec with safekeepers_generation := some g }
         | none => spec)

/-- Embedded from `Endpoint::reconfigure` in `endpoint.rs`: read the
persisted spec, refresh its embedded `postgresql.conf` text from disk,
optionally replace the topology (rejecting an empty shard map before
anything is pushed), optionally replace the safekeeper list/generation,
and push the result to the live process. The first component of the
result is the on-disk state after the call: the source never writes it
back, so it is returned unchanged on every path. The pushed spec is the
payload of the `Ok` result. -/
def reconfigure (mode : ComputeMode) (env_safekeepers : List SafekeeperNode)
    (disk : EndpointDisk)
    (pageserver_conninfo : Option PageserverConnectionInfo)
    (safekeepers : Option (List Nat)) (safekeeper_generation : Option Nat) :
    EndpointDisk × Except String ComputeSpecM :=
  let spec := disk.config_spec
  let spec := { spec with cluster_postgresql_conf := some disk.postgresql_conf }
  match pageserver_conninfo with
  | some pci =>
    if pci.shards.isEmpty then (disk, Except.error "no pageservers provided")
    else
      let spec :=
        { spec with pageserver_connection_info := some pci,
                    shard_stripe_size := pci.stripe_size }
      (disk, reconfigure_safekeepers_step mode env_safekeepers spec
               safekeepers safekeeper_generation)
  | none =>
    (disk, reconfigure_safekeepers_step mode env_safekeepers spec
             safekeepers safekeeper_generation)

/-! ## JSON Web Key Set creation (`create_jwks_from_pem`) -/

/-- Truncation to a 32-bit word. -/
def w32 (x : Nat) : Nat := x % 4294967296

/-- Right rotation of a 32-bit word by `n` bits. -/
def rotr32 (n x : Nat) : Nat := x / 2 ^ n + x % 2 ^ n * 2 ^ (32 - n)

/-- SHA-256 choice function. -/
def shaCh (x y z : Nat) : Nat :=
  Nat.xor (Nat.land x y) (Nat.land (Nat.xor x 4294967295) z)

/-- SHA-256 majority function. -/
def shaMaj (x y z : Nat) : Nat :=
  Nat.xor (Nat.xor (Nat.land x y) (Nat.land x z)) (Nat.land y z)

/-- SHA-256 big sigma 0. -/
def bigSigma0 (x : Nat) : Nat :=
  Nat.xor (Nat.xor (rotr32 2 x) (rotr32 13 x)) (rotr32 22 x)

/-- SHA-256 big sigma 1. -/
def bigSigma1 (x : Nat) : Nat :=
  Nat.xor (Nat.xor (rotr32 6 x) (rotr32 11 x)) (rotr32 25 x)

/-- SHA-256 small sigma 0. -/
def smallSigma0 (x : Nat) : Nat :=
  Nat.xor (Nat.xor (rotr32 7 x) (rotr32 18 x)) (x / 8)

/-- SHA-256 small sigma 1. -/
def smallSigma1 (x : Nat) : Nat :=
  Nat.xor (Nat.xor (rotr32 17 x) (rotr32 19 x)) (x / 1024)

/-- SHA-256 round constants (in decimal). -/
def sha256K : List Nat :=
  [1116352408, 1899447441, 3049323471, 3921009573, 961987163,
   1508970993, 2453635748, 2870763221, 3624381080, 310598401,
   607225278, 1426881987, 1925078388, 2162078206, 2614888103,
   3248222580, 3835390401, 4022224774, 264347078, 604807628,
   770255983, 1249150122, 1555081692, 1996064986, 2554220882,
   2821834349, 2952996808, 3210313671, 3336571891, 3584528711,
   113926993, 338241895, 666307205, 773529912, 1294757372,
   1396182291, 1695183700, 1986661051, 2177026350, 2456956037,
   2730485921, 2820302411, 3259730800, 3345764771, 3516065817,
   3600352804, 4094571909, 275423344, 430227734, 506948616,
   659060556, 883997877, 958139571, 1322822218, 1537002063,
   1747873779, 1955562222, 2024104815, 2227730452, 2361852424,
   2428436474, 2756734187, 3204031479, 3329325298]

/-- SHA-256 initial hash value (in decimal). -/
def sha256H0 : List Nat :=
  [1779033703, 3144134277, 1013904242, 2773480762,
   1359893119, 2600822924, 528734635, 1541459225]

/-- Big-endian packing of bytes into 32-bit words. -/
def bytesToWords : List Nat → List Nat
  | a :: b :: c :: d :: rest =>
    (a * 16777216 + b * 65536 + c * 256 + d) :: bytesToWords rest
  | _ => []

/-- One step of the SHA-256 message-schedule extension. -/
def scheduleStep (ws : List Nat) : List Nat :=
  let i := ws.length
  ws ++ [w32 (smallSigma1 (ws.getD (i - 2) 0) + ws.getD (i - 7) 0
              + smallSigma0 (ws.getD (i - 15) 0) + ws.getD (i - 16) 0)]

/-- Extension of the 16 block words to the 64-entry schedule. -/
def fullSchedule (ws16 : List Nat) : List Nat :=
  (List.range 48).foldl (fun ws _ => scheduleStep ws) ws16

/-- One SHA-256 compression round on the 8-word working state. -/
def compressRound (state : List Nat) (kw : Nat × Nat) : List Nat :=
  match state with
  | [a, b, c, d, e, f, g, h] =>
    let t1 := w32 (h + bigSigma1 e + shaCh e f g + kw.1 + kw.2)
    let t2 := w32 (bigSigma0 a + shaMaj a b c)
    [w32 (t1 + t2), a, b, c, w32 (d + t1), e, f, g]
  | s => s

/-- SHA-256 compression of one 64-byte block into the hash state. -/
def compressBlock (h : List Nat) (block : List Nat) : List Nat :=
  let ws := fullSchedule (bytesToWords block)
  let st := (sha256K.zip ws).foldl compressRound h
  (h.zip st).map (fun p => w32 (p.1 + p.2))

/-- Splitting a byte list into 64-byte blocks. -/
def chunks64 : List Nat → List (List Nat)
  | [] => []
  | x :: rest => (x :: rest).take 64 :: chunks64 ((x :: rest).drop 64)
termination_by l => l.length
decreasing_by
  simp only [List.length_drop, List.length_cons]
  omega

/-- Big-endian 8-byte encoding of a length in bits. -/
def lenBytes8 (n : Nat) : List Nat :=
  [n / 2 ^ 56 % 256, n / 2 ^ 48 % 256, n / 2 ^ 40 % 256, n / 2 ^ 32 % 256,
   n / 2 ^ 24 % 256, n / 2 ^ 16 % 256, n / 2 ^ 8 % 256, n % 256]

/-- SHA-256 padding: a `0x80` byte, zeros to 56 mod 64, and the bit length. -/
def sha256pad (msg : List Nat) : List Nat :=
  let zeros := (119 - msg.length % 64) % 64
  msg ++ 128 :: List.replicate zeros 0 ++ lenBytes8 (msg.length * 8)

/-- SHA-256 of a byte list, embedding the `sha2` crate's `Sha256` used by
`create_jwks_from_pem`. -/
def sha256 (msg : List Nat) : List Nat :=
  let hs := (chunks64 (sha256pad msg)).foldl compressBlock sha256H0
  (hs.map (fun w => [w / 2 ^ 24 % 256, w / 2 ^ 16 % 256, w / 2 ^ 8 % 256,
                     w % 256])).flatten

/-- Alphabet of the URL-safe base64 encoding. -/
def b64urlAlphabet : List Char :=
  "ABCDEFGHIJKLMNOPQRSTUVWXYZabcdefghijklmnopqrstuvwxyz0123456789-_".toList

/-- Character of the URL-safe base64 alphabet at a 6-bit index. -/
def b64urlChar (n : Nat) : Char := b64urlAlphabet.getD n 'A'

/-- URL-safe base64 without padding over a byte list, embedding the
`base64` crate's `BASE64_URL_SAFE_NO_PAD` engine used by
`create_jwks_from_pem`: no `=` padding is emitted for partial groups. -/
def base64_url_safe_no_pad : List Nat → List Char
  | [] => []
  | [a] => [b64urlChar (a / 4), b64urlChar (a % 4 * 16)]
  | [a, b] =>
    [b64urlChar (a / 4), b64urlChar (a % 4 * 16 + b / 16),
     b64urlChar (b % 16 * 4)]
  | a :: b :: c :: rest =>
    b64urlChar (a / 4) :: b64urlChar (a % 4 * 16 + b / 16)
      :: b64urlChar (b % 16 * 4 + c / 64) :: b64urlChar (c % 64)
      :: base64_url_safe_no_pad rest

/-- URL-safe unpadded base64 of a byte list, as a string. -/
def b64encode (bs : List Nat) : String :=
  String.mk (base64_url_safe_no_pad bs)

/-- Public-key usage tag of a JWK (`jsonwebtoken::jwk::PublicKeyUse`). -/
inductive PublicKeyUse where
  | Signature
  | Encryption
deriving DecidableEq

/-- Key-operation tag of a JWK (`jsonwebtoken::jwk::KeyOperations`). -/
inductive KeyOperations where
  | Verify
  | Sign
deriving DecidableEq

/-- Key-algorithm tag of a JWK (`jsonwebtoken::jwk::KeyAlgorithm`). -/
inductive KeyAlgorithm where
  | EdDSA
  | ES256
deriving DecidableEq

/-- Octet-key-pair key type tag (`jsonwebtoken::jwk::OctetKeyPairType`). -/
inductive OctetKeyPairType where
  | OctetKeyPair
deriving DecidableEq

/-- Elliptic curve tag (`jsonwebtoken::jwk::EllipticCurve`). -/
inductive EllipticCurve where
  | Ed25519
  | P256
deriving DecidableEq

/-- Common JWK parameters (`jsonwebtoken::jwk::CommonParameters`). -/
structure CommonParameters where
  public_key_use : Option PublicKeyUse
  key_operations : Option (List KeyOperations)
  key_algorithm : Option KeyAlgorithm
  key_id : Option String
  x509_url : Option String
  x509_chain : Option (List String)
  x509_sha1_fingerprint : Option String
  x509_sha256_fingerprint : Option String
deriving DecidableEq

/-- Octet-key-pair parameters (`jsonwebtoken::jwk::OctetKeyPairParameters`). -/
structure OctetKeyPairParameters where
  key_type : OctetKeyPairType
  curve : EllipticCurve
  x : String
deriving DecidableEq

/-- Algorithm-specific JWK parameters; the source only builds the
octet-key-pair variant. -/
inductive AlgorithmParameters where
  | OctetKeyPair (params : OctetKeyPairParameters)
deriving DecidableEq

/-- One JSON Web Key (`jsonwebtoken::jwk::Jwk`). -/
structure Jwk where
  common : CommonParameters
  algorithm : AlgorithmParameters
deriving DecidableEq

/-- A JSON Web Key Set (`jsonwebtoken::jwk::JwkSet`). -/
structure JwkSet where
  keys : List Jwk
deriving DecidableEq

/-- Embedded from `ComputeControlPlane::create_jwks_from_pem` in
`endpoint.rs`. The input is the raw subject-public-key byte string that
the source extracts from the PEM's SPKI DER (the DER parse itself is the
external `spki` crate). The set holds a single key: verification-only
usage, EdDSA algorithm, key id the unpadded URL-safe base64 of the
SHA-256 of the raw key bytes, and key material the unpadded URL-safe
base64 of the raw key bytes themselves. -/
def create_jwks_from_pem (public_key : List Nat) : JwkSet :=
  let key_hash := sha256 public_key
  { keys :=
      [{ common :=
           { public_key_use := some PublicKeyUse.Signature,
             key_operations := some [KeyOperations.Verify],
             key_algorithm := some KeyAlgorithm.EdDSA,
             key_id := some (b64encode key_hash),
             x509_url := none,
             x509_chain := none,
             x509_sha1_fingerprint := none,
             x509_sha256_fingerprint := none },
         algorithm :=
           AlgorithmParameters.OctetKeyPair
             { key_type := OctetKeyPairType.OctetKeyPair,
               curve := EllipticCurve.Ed25519,
               x := b64encode public_key } }] }

/-! ## Helper lemmas -/

/-- Key-replacement insertion always leaves the inserted binding in the map. -/
theorem btreeInsert_mem (k : String) (v : Endpoint) :
    ∀ l : List (String × Endpoint), (k, v) ∈ btreeInsert k v l := by
  intro l
  induction l with
  | nil => simp [btreeInsert]
  | cons kv rest ih =>
    by_cases h : kv.1 = k <;> simp [btreeInsert, h, ih]

/-- Unfolding of the decode loop on a successful head key. -/
theorem jwtDecodeLoop_cons_ok {D : Type} (dec : Nat → Except String D)
    (k : Nat) (ks : List Nat) (d : D) (h : dec k = Except.ok d) :
    jwtDecodeLoop dec (k :: ks) = Except.ok d := by
  simp [jwtDecodeLoop, h]

/-- Unfolding of the decode loop on a failing head key with more keys left. -/
theorem jwtDecodeLoop_cons_err {D : Type} (dec : Nat → Except String D)
    (k : Nat) (ks : List Nat) (e : String) (h : dec k = Except.error e)
    (hne : ks ≠ []) :
    jwtDecodeLoop dec (k :: ks) = jwtDecodeLoop dec ks := by
  cases ks with
  | nil => exact absurd rfl hne
  | cons y l => simp [jwtDecodeLoop, h]

/-- Unfolding of the decode loop on a failing final key. -/
theorem jwtDecodeLoop_single_err {D : Type} (dec : Nat → Except String D)
    (k : Nat) (e : String) (h : dec k = Except.error e) :
    jwtDecodeLoop dec [k] = Except.error ⟨e⟩ := by
  simp [jwtDecodeLoop, h]

/-! ## Claim theorems -/

/-- C2: the status query derives the result from the two per-call
observables (liveness marker present, TCP connect succeeds) by the exact
truth table (yes, yes) → Running, (no, no) → Stopped, (yes, no) → Crashed,
(no, yes) → RunningNoPidfile; `Endpoint.status` is a pure function of the
observables read fresh on each call, so nothing is cached. -/
theorem status_truth_table :
    status_of_observables true true = EndpointStatus.Running ∧
    status_of_observables false false = EndpointStatus.Stopped ∧
    status_of_observables true false = EndpointStatus.Crashed ∧
    status_of_observables false true = EndpointStatus.RunningNoPidfile :=
  ⟨rfl, rfl, rfl, rfl⟩

/-- C5 counterexample: with no endpoints registered, `get_port` returns
one greater than the base port (55432), not the base port (55431) as the
claim states. -/
theorem get_port_empty_counterexample :
    get_port { base_port := 55431, endpoints := [] } = 55432 ∧
    get_port { base_port := 55431, endpoints := [] } ≠ 55431 := by
  constructor
  · rfl
  · decide

/-- C5 (amended): `get_port` returns one greater than the maximum port in
use across all known endpoints, each endpoint contributing both its data
port and its external HTTP port; when no endpoints exist it returns one
greater than the fixed base port. -/
theorem get_port_amended (cp : ComputeControlPlane) :
    (cp.endpoints = [] → get_port cp = cp.base_port + 1) ∧
    (∀ m, (cp.endpoints.map
        (fun kv => max kv.2.pg_port kv.2.external_http_port)).max? = some m →
      get_port cp = m + 1) := by
  constructor
  · intro h
    simp [get_port, h]
    omega
  · intro m hm
    simp [get_port, hm]
    omega

/-- C5 amended-claim witness: a registry with one endpoint (data port
55431, external HTTP port 55433) allocates 55434; an empty registry with
base port 55431 allocates 55432. -/
theorem get_port_amended_witness :
    get_port { base_port := 55431, endpoints :=
      [("ep1", { endpoint_id := "ep1", tenant_id := 1, timeline_id := 2,
                 mode := ComputeMode.Primary, pg_port := 55431,
                 external_http_port := 55433, internal_http_port := 55434,
                 has_pidfile := false, can_connect := false })] } = 55433 + 1 ∧
    get_port { base_port := 55431, endpoints := [] } = 55431 + 1 := by
  constructor
  · exact (get_port_amended _).2 55433 (by decide)
  · exact (get_port_amended _).1 rfl

/-- C8: for every public key, the derived verification key set has exactly
one entry; its key id is the unpadded base64url encoding of the SHA-256 of
the raw public key bytes, its key material is the unpadded base64url
encoding of the raw public key bytes, and it is marked for signature
verification only (use = Signature, operations = [Verify]) with the EdDSA
algorithm tag. -/
theorem create_jwks_single_verification_key (public_key : List Nat) :
    (create_jwks_from_pem public_key).keys.length = 1 ∧
    (create_jwks_from_pem public_key).keys.head? = some
      { common :=
          { public_key_use := some PublicKeyUse.Signature,
            key_operations := some [KeyOperations.Verify],
            key_algorithm := some KeyAlgorithm.EdDSA,
            key_id := some (b64encode (sha256 public_key)),
            x509_url := none, x509_chain := none,
            x509_sha1_fingerprint := none, x509_sha256_fingerprint := none },
        algorithm := AlgorithmParameters.OctetKeyPair
          { key_type := OctetKeyPairType.OctetKeyPair,
            curve := EllipticCurve.Ed25519,
            x := b64encode public_key } } :=
  ⟨rfl, rfl⟩

/-- C4: the decode loop tries the candidate keys in list order and returns
the claims of the first key whose decode succeeds; when every key fails,
the error surfaced is the one produced by the last key tried. -/
theorem decode_key_order (D : Type) (dec : Nat → Except String D) :
    (∀ (ks1 : List Nat) (k : Nat) (ks2 : List Nat) (d : D),
        (∀ k' ∈ ks1, (dec k').isOk = false) → dec k = Except.ok d →
        jwtDecodeLoop dec (ks1 ++ k :: ks2) = Except.ok d) ∧
    (∀ (ks : List Nat) (k : Nat) (e : String),
        (∀ k' ∈ ks, (dec k').isOk = false) → dec k = Except.error e →
        jwtDecodeLoop dec (ks ++ [k]) = Except.error ⟨e⟩) := by
  constructor
  · intro ks1
    induction ks1 with
    | nil =>
      intro k ks2 d _ hk
      exact jwtDecodeLoop_cons_ok dec k ks2 d hk
    | cons a t ih =>
      intro k ks2 d hfail hk
      have ha : (dec a).isOk = false := hfail a (by simp)
      obtain ⟨ea, hea⟩ : ∃ ea, dec a = Except.error ea := by
        cases hda : dec a with
        | ok _ => rw [hda] at ha; simp [Except.isOk, Except.toBool] at ha
        | error ea => exact ⟨ea, rfl⟩
      rw [List.cons_append,
          jwtDecodeLoop_cons_err dec a (t ++ k :: ks2) ea hea (by simp)]
      exact ih k ks2 d (fun k' hk' => hfail k' (by simp [hk'])) hk
  · intro ks
    induction ks with
    | nil =>
      intro k e _ hk
      exact jwtDecodeLoop_single_err dec k e hk
    | cons a t ih =>
      intro k e hfail hk
      have ha : (dec a).isOk = false := hfail a (by simp)
      obtain ⟨ea, hea⟩ : ∃ ea, dec a = Except.error ea := by
        cases hda : dec a with
        | ok _ => rw [hda] at ha; simp [Except.isOk, Except.toBool] at ha
        | error ea => exact ⟨ea, rfl⟩
      rw [List.cons_append,
          jwtDecodeLoop_cons_err dec a (t ++ [k]) ea hea (by simp)]
      exact ih k e (fun k' hk' => hfail k' (by simp [hk'])) hk

/-- C4 witness: with keys [0, 1, 2] where only key 1 decodes, the loop
returns key 1's payload; with keys [0, 1, 2] all failing, the loop
returns the last error. -/
theorem decode_key_order_witness :
    jwtDecodeLoop (fun k => if k = 1 then Except.ok 7 else Except.error "bad")
      ([0] ++ 1 :: [2]) = Except.ok 7 ∧
    jwtDecodeLoop (fun _ => (Except.error "bad" : Except String Nat))
      ([0, 1] ++ [2]) = Except.error ⟨"bad"⟩ := by
  constructor
  · exact (decode_key_order Nat _).1 [0] 1 [2] 7 (by decide) rfl
  · exact (decode_key_order Nat _).2 [0, 1] 2 "bad" (by decide) rfl

/-- C3: signing a claims object with the private key and verifying the
resulting token against the key set holding the matching public key
returns the claims unchanged, while verifying against a key set holding
only an unrelated key fails with an authentication error. -/
theorem token_round_trip (claims : Claims) (priv_key other_key : Nat)
    (h : other_key ≠ priv_key) :
    (JwtAuthM.new [priv_key]).decode (encode_from_key_file claims priv_key) =
      Except.ok claims ∧
    (JwtAuthM.new [other_key]).decode (encode_from_key_file claims priv_key) =
      Except.error ⟨"InvalidSignature"⟩ := by
  constructor
  · simp [JwtAuthM.decode, JwtAuthM.new, jwtDecodeLoop, jsonwebtoken_decode,
          encode_from_key_file]
  · have h' : priv_key ≠ other_key := fun he => h he.symm
    simp [JwtAuthM.decode, JwtAuthM.new, jwtDecodeLoop, jsonwebtoken_decode,
          encode_from_key_file, h']

/-- C3 witness: concrete round trip with key pair 0 and unrelated key 1. -/
theorem token_round_trip_witness :
    (JwtAuthM.new [0]).decode (encode_from_key_file
      { tenant_id := some 5, endpoint_id := none, scope := Scope.Tenant } 0) =
      Except.ok { tenant_id := some 5, endpoint_id := none, scope := Scope.Tenant } ∧
    (JwtAuthM.new [1]).decode (encode_from_key_file
      { tenant_id := some 5, endpoint_id := none, scope := Scope.Tenant } 0) =
      Except.error ⟨"InvalidSignature"⟩ :=
  token_round_trip _ 0 1 (by decide)

/-- A shard walk over shards that all resolve to a first replica with a
libpq URL collects exactly those URLs in walk order. -/
theorem collectShardUrls_all_some (info : PageserverConnectionInfo) :
    ∀ l : List Nat,
      (∀ i ∈ l, (firstPageserver info i).isSome) →
      (∀ i ∈ l, (firstLibpq info i).isSome) →
      collectShardUrls info l =
        Except.ok (some (l.map (fun i => (firstLibpq info i).getD ""))) := by
  intro l
  induction l with
  | nil => intro _ _; rfl
  | cons j rest ih =>
    intro hfp hlp
    have hfpj := hfp j (by simp)
    have hlpj := hlp j (by simp)
    cases hlk : lookupShard info j with
    | none => simp [firstPageserver, hlk] at hfpj
    | some s =>
      cases hhd : s.pageservers.head? with
      | none => simp [firstPageserver, hlk, hhd] at hfpj
      | some ps =>
        cases hlu : ps.libpq_url with
        | none => simp [firstLibpq, firstPageserver, hlk, hhd, hlu] at hlpj
        | some u =>
          have hrest := ih (fun i hi => hfp i (by simp [hi]))
            (fun i hi => hlp i (by simp [hi]))
          have hfl : firstLibpq info j = some u := by
            simp [firstLibpq, firstPageserver, hlk, hhd, hlu]
          simp [collectShardUrls, hlk, hhd, hlu, hrest, hfl]

/-- A shard walk in which every shard resolves to a first replica but some
first replica lacks a libpq URL aborts with `none`. -/
theorem collectShardUrls_none (info : PageserverConnectionInfo) :
    ∀ l : List Nat,
      (∀ i ∈ l, (firstPageserver info i).isSome) →
      (∃ i ∈ l, firstLibpq info i = none) →
      collectShardUrls info l = Except.ok none := by
  intro l
  induction l with
  | nil => intro _ hex; simp at hex
  | cons j rest ih =>
    intro hfp hex
    have hfpj := hfp j (by simp)
    cases hlk : lookupShard info j with
    | none => simp [firstPageserver, hlk] at hfpj
    | some s =>
      cases hhd : s.pageservers.head? with
      | none => simp [firstPageserver, hlk, hhd] at hfpj
      | some ps =>
        cases hlu : ps.libpq_url with
        | none => simp [collectShardUrls, hlk, hhd, hlu]
        | some u =>
          have hj : firstLibpq info j = some u := by
            simp [firstLibpq, firstPageserver, hlk, hhd, hlu]
          have hexr : ∃ i ∈ rest, firstLibpq info i = none := by
            obtain ⟨i, hi, hni⟩ := hex
            rcases List.mem_cons.mp hi with rfl | hmem
            · rw [hj] at hni; exact absurd hni (by simp)
            · exact ⟨i, hmem, hni⟩
          have hrest := ih (fun i hi => hfp i (by simp [hi])) hexr
          simp [collectShardUrls, hlk, hhd, hlu, hrest]

/-- C1: the legacy fallback connection string considers the shards in
increasing shard-number order, taking each shard's first listed replica;
if any shard's first replica lacks a libpq URL the result is `none`
(never a partial string), and otherwise the result is the per-shard libpq
URLs joined with commas in shard order. Stated for topologies in which
every shard in range resolves to a first replica (the source errors out
otherwise instead of producing a string). -/
theorem pageserver_connstring_resolution (info : PageserverConnectionInfo)
    (hwf : ∀ i ∈ List.range (numShards info), (firstPageserver info i).isSome) :
    ((∃ i ∈ List.range (numShards info), firstLibpq info i = none) →
        pageserver_connstring info = Except.ok none) ∧
    ((∀ i ∈ List.range (numShards info), (firstLibpq info i).isSome) →
        pageserver_connstring info =
          Except.ok (some (String.intercalate ","
            ((List.range (numShards info)).map
              (fun i => (firstLibpq info i).getD ""))))) := by
  constructor
  · intro hex
    have h := collectShardUrls_none info (List.range (numShards info)) hwf hex
    simp [pageserver_connstring, h]
  · intro hall
    have h := collectShardUrls_all_some info (List.range (numShards info)) hwf hall
    simp [pageserver_connstring, h]

/-- C1 witness: a two-shard topology with libpq URLs "A" and "B" resolves
to "A,B"; the same topology with shard 1's first replica lacking a libpq
URL resolves to `none`. -/
theorem pageserver_connstring_resolution_witness :
    pageserver_connstring
      { shard_count := ⟨2⟩, stripe_size := none,
        shards :=
          [(⟨⟨2⟩, 0⟩, ⟨[⟨some 1, some "A", none⟩]⟩),
           (⟨⟨2⟩, 1⟩, ⟨[⟨some 2, some "B", none⟩]⟩)],
        prefer_protocol := PageserverProtocol.Libpq } =
      Except.ok (some "A,B") ∧
    pageserver_connstring
      { shard_count := ⟨2⟩, stripe_size := none,
        shards :=
          [(⟨⟨2⟩, 0⟩, ⟨[⟨some 1, some "A", none⟩]⟩),
           (⟨⟨2⟩, 1⟩, ⟨[⟨some 2, none, none⟩]⟩)],
        prefer_protocol := PageserverProtocol.Libpq } = Except.ok none := by
  constructor
  · have h := (pageserver_connstring_resolution
      { shard_count := ⟨2⟩, stripe_size := none,
        shards :=
          [(⟨⟨2⟩, 0⟩, ⟨[⟨some 1, some "A", none⟩]⟩),
           (⟨⟨2⟩, 1⟩, ⟨[⟨some 2, some "B", none⟩]⟩)],
        prefer_protocol := PageserverProtocol.Libpq } (by decide)).2 (by decide)
    rw [h]; rfl
  · exact (pageserver_connstring_resolution
      { shard_count := ⟨2⟩, stripe_size := none,
        shards :=
          [(⟨⟨2⟩, 0⟩, ⟨[⟨some 1, some "A", none⟩]⟩),
           (⟨⟨2⟩, 1⟩, ⟨[⟨some 2, none, none⟩]⟩)],
        prefer_protocol := PageserverProtocol.Libpq } (by decide)).1 (by decide)

/-- The conflict filter holds exactly when the endpoint has the given
tenant, timeline and mode and its current status is not `Stopped`. -/
theorem isConflicting_iff (t tl : Nat) (mode : ComputeMode)
    (kv : String × Endpoint) :
    isConflicting t tl mode kv = true ↔
      (kv.2.tenant_id = t ∧ kv.2.timeline_id = tl ∧ kv.2.mode = mode ∧
        kv.2.status ≠ EndpointStatus.Stopped) := by
  simp [isConflicting, and_assoc]

/-- C6: creating a `Primary` endpoint for a (tenant, timeline) pair fails
whenever some registered endpoint with the same tenant, timeline and
`Primary` mode has a status other than `Stopped`, and succeeds —
registering the new endpoint — exactly when no such conflicting endpoint
exists. -/
theorem create_primary_conflict (cp : ComputeControlPlane)
    (endpoint_id : String) (t tl : Nat) :
    ((∃ kv ∈ cp.endpoints, kv.2.tenant_id = t ∧ kv.2.timeline_id = tl ∧
        kv.2.mode = ComputeMode.Primary ∧ kv.2.status ≠ EndpointStatus.Stopped) →
      (create_endpoint cp endpoint_id t tl ComputeMode.Primary).isOk = false) ∧
    ((¬ ∃ kv ∈ cp.endpoints, kv.2.tenant_id = t ∧ kv.2.timeline_id = tl ∧
        kv.2.mode = ComputeMode.Primary ∧ kv.2.status ≠ EndpointStatus.Stopped) →
      ∃ cp', create_endpoint cp endpoint_id t tl ComputeMode.Primary =
          Except.ok cp' ∧
        ∃ kv ∈ cp'.endpoints, kv.1 = endpoint_id ∧ kv.2.tenant_id = t ∧
          kv.2.timeline_id = tl ∧ kv.2.mode = ComputeMode.Primary) := by
  constructor
  · intro hex
    obtain ⟨kv, hmem, hprops⟩ := hex
    have hfind : (cp.endpoints.find?
        (isConflicting t tl ComputeMode.Primary)).isSome := by
      apply List.find?_isSome.mpr
      exact ⟨kv, hmem, (isConflicting_iff t tl ComputeMode.Primary kv).mpr hprops⟩
    cases hf : cp.endpoints.find? (isConflicting t tl ComputeMode.Primary) with
    | none => rw [hf] at hfind; simp at hfind
    | some kv' =>
      simp [create_endpoint, check_conflicting_endpoints, hf, Except.isOk,
            Except.toBool]
  · intro hnex
    have hf : cp.endpoints.find? (isConflicting t tl ComputeMode.Primary)
        = none := by
      cases hf : cp.endpoints.find? (isConflicting t tl ComputeMode.Primary) with
      | none => rfl
      | some kv' =>
        exact absurd ⟨kv', List.mem_of_find?_eq_some hf,
          (isConflicting_iff t tl ComputeMode.Primary kv').mp
            (List.find?_some hf)⟩ hnex
    refine ⟨new_endpoint cp endpoint_id t tl ComputeMode.Primary, ?_, ?_⟩
    · simp [create_endpoint, check_conflicting_endpoints, hf]
    · refine ⟨(endpoint_id,
        { endpoint_id := endpoint_id, tenant_id := t, timeline_id := tl,
          mode := ComputeMode.Primary, pg_port := get_port cp,
          external_http_port := get_port cp + 1,
          internal_http_port := get_port cp + 1 + 1,
          has_pidfile := false, can_connect := false }), ?_, rfl, rfl, rfl, rfl⟩
      simp only [new_endpoint]
      exact btreeInsert_mem endpoint_id _ cp.endpoints

/-- C6 witness: with a non-stopped primary endpoint registered for tenant
1, timeline 2, a second primary create for (1, 2) fails; with an empty
registry the create succeeds and registers the endpoint. -/
theorem create_primary_conflict_witness :
    (create_endpoint
      { base_port := 55431, endpoints :=
        [("a", { endpoint_id := "a", tenant_id := 1, timeline_id := 2,
                 mode := ComputeMode.Primary, pg_port := 100,
                 external_http_port := 101, internal_http_port := 102,
                 has_pidfile := true, can_connect := false })] }
      "b" 1 2 ComputeMode.Primary).isOk = false ∧
    (∃ cp', create_endpoint { base_port := 55431, endpoints := [] }
        "b" 1 2 ComputeMode.Primary = Except.ok cp' ∧
      ∃ kv ∈ cp'.endpoints, kv.1 = "b" ∧ kv.2.tenant_id = 1 ∧
        kv.2.timeline_id = 2 ∧ kv.2.mode = ComputeMode.Primary) := by
  constructor
  · exact (create_primary_conflict _ "b" 1 2).1 (by decide)
  · exact (create_primary_conflict _ "b" 1 2).2 (by decide)

/-- The safekeeper step of a reconfigure leaves the engine-config text,
the topology and the stripe size of the spec untouched on success. -/
theorem reconfigure_sk_step_preserves (mode : ComputeMode)
    (env_safekeepers : List SafekeeperNode) (spec : ComputeSpecM)
    (sks? : Option (List Nat)) (gen? : Option Nat) :
    ∀ s, reconfigure_safekeepers_step mode env_safekeepers spec sks? gen? =
        Except.ok s →
      s.cluster_postgresql_conf = spec.cluster_postgresql_conf ∧
      s.pageserver_connection_info = spec.pageserver_connection_info ∧
      s.shard_stripe_size = spec.shard_stripe_size := by
  intro s hs
  cases sks? with
  | none =>
    simp [reconfigure_safekeepers_step] at hs
    rw [← hs]
    exact ⟨rfl, rfl, rfl⟩
  | some sks =>
    cases hb : build_safekeepers_connstrs mode env_safekeepers sks with
    | error e => simp [reconfigure_safekeepers_step, hb] at hs
    | ok conns =>
      cases gen? with
      | none =>
        simp [reconfigure_safekeepers_step, hb] at hs
        rw [← hs]
        exact ⟨rfl, rfl, rfl⟩
      | some g =>
        simp [reconfigure_safekeepers_step, hb] at hs
        rw [← hs]
        exact ⟨rfl, rfl, rfl⟩

/-- C7: a reconfigure call never mutates the persisted on-disk state; a
supplied topology with zero shards makes the call fail with the
invalid-topology error before any spec is pushed; and when the topology
or the safekeeper list is omitted, the corresponding fields of the pushed
spec keep their previously persisted values. -/
theorem reconfigure_partial_update (mode : ComputeMode)
    (env_safekeepers : List SafekeeperNode) (disk : EndpointDisk)
    (pci? : Option PageserverConnectionInfo) (sks? : Option (List Nat))
    (gen? : Option Nat) :
    (reconfigure mode env_safekeepers disk pci? sks? gen?).1 = disk ∧
    (∀ pci, pci? = some pci → pci.shards = [] →
      (reconfigure mode env_safekeepers disk pci? sks? gen?).2 =
        Except.error "no pageservers provided") ∧
    (pci? = none →
      ∀ s, (reconfigure mode env_safekeepers disk pci? sks? gen?).2 =
          Except.ok s →
        s.pageserver_connection_info =
            disk.config_spec.pageserver_connection_info ∧
          s.shard_stripe_size = disk.config_spec.shard_stripe_size) ∧
    (sks? = none →
      ∀ s, (reconfigure mode env_safekeepers disk pci? sks? gen?).2 =
          Except.ok s →
        s.safekeeper_connstrings = disk.config_spec.safekeeper_connstrings ∧
          s.safekeepers_generation = disk.config_spec.safekeepers_generation) := by
  refine ⟨?_, ?_, ?_, ?_⟩
  · cases pci? with
    | none => rfl
    | some pci =>
      by_cases h : pci.shards.isEmpty <;> simp [reconfigure, h]
  · intro pci hp hsh
    subst hp
    simp [reconfigure, hsh]
  · intro hp s hs
    subst hp
    simp only [reconfigure] at hs
    have h := reconfigure_sk_step_preserves mode env_safekeepers _ sks? gen? s hs
    exact ⟨h.2.1, h.2.2⟩
  · intro hsk s hs
    subst hsk
    cases pci? with
    | none =>
      simp only [reconfigure, reconfigure_safekeepers_step] at hs
      injection hs with hs
      rw [← hs]
      exact ⟨rfl, rfl⟩
    | some pci =>
      by_cases hE : pci.shards.isEmpty
      · simp [reconfigure, hE] at hs
      · simp only [reconfigure, hE, if_false, Bool.false_eq_true, if_neg,
          reconfigure_safekeepers_step] at hs
        injection hs with hs
        rw [← hs]
        exact ⟨rfl, rfl⟩

/-- C7 witness: with persisted safekeeper connstrings ["x"], generation 3
and no stored topology, a reconfigure supplying an empty-shard topology
leaves the disk unchanged and fails with the invalid-topology error, and
a reconfigure omitting topology and safekeepers pushes a spec keeping all
persisted values. -/
theorem reconfigure_partial_update_witness :
    (reconfigure ComputeMode.Primary []
      { config_spec :=
          { cluster_postgresql_conf := none,
            pageserver_connection_info := none, shard_stripe_size := none,
            safekeeper_connstrings := ["x"], safekeepers_generation := some 3 },
        postgresql_conf := "conf" }
      (some { shard_count := ⟨1⟩, stripe_size := none, shards := [],
              prefer_protocol := PageserverProtocol.Libpq })
      none none).1 =
      { config_spec :=
          { cluster_postgresql_conf := none,
            pageserver_connection_info := none, shard_stripe_size := none,
            safekeeper_connstrings := ["x"], safekeepers_generation := some 3 },
        postgresql_conf := "conf" } ∧
    (reconfigure ComputeMode.Primary []
      { config_spec :=
          { cluster_postgresql_conf := none,
            pageserver_connection_info := none, shard_stripe_size := none,
            safekeeper_connstrings := ["x"], safekeepers_generation := some 3 },
        postgresql_conf := "conf" }
      (some { shard_count := ⟨1⟩, stripe_size := none, shards := [],
              prefer_protocol := PageserverProtocol.Libpq })
      none none).2 = Except.error "no pageservers provided" ∧
    (({ cluster_postgresql_conf := some "conf",
        pageserver_connection_info := none, shard_stripe_size := none,
        safekeeper_connstrings := ["x"],
        safekeepers_generation := some 3 } : ComputeSpecM).pageserver_connection_info =
      none ∧
      ({ cluster_postgresql_conf := some "conf",
         pageserver_connection_info := none, shard_stripe_size := none,
         safekeeper_connstrings := ["x"],
         safekeepers_generation := some 3 } : ComputeSpecM).shard_stripe_size =
        none) ∧
    (({ cluster_postgresql_conf := some "conf",
        pageserver_connection_info := none, shard_stripe_size := none,
        safekeeper_connstrings := ["x"],
        safekeepers_generation := some 3 } : ComputeSpecM).safekeeper_connstrings =
      ["x"] ∧
      ({ cluster_postgresql_conf := some "conf",
         pageserver_connection_info := none, shard_stripe_size := none,
         safekeeper_connstrings := ["x"],
         safekeepers_generation := some 3 } : ComputeSpecM).safekeepers_generation =
        some 3) := by
  refine ⟨?_, ?_, ?_, ?_⟩
  · exact (reconfigure_partial_update ComputeMode.Primary []
      { config_spec :=
          { cluster_postgresql_conf := none,
            pageserver_connection_info := none, shard_stripe_size := none,
            safekeeper_connstrings := ["x"], safekeepers_generation := some 3 },
        postgresql_conf := "conf" }
      (some { shard_count := ⟨1⟩, stripe_size := none, shards := [],
              prefer_protocol := PageserverProtocol.Libpq })
      none none).1
  · exact (reconfigure_partial_update ComputeMode.Primary []
      { config_spec :=
          { cluster_postgresql_conf := none,
            pageserver_connection_info := none, shard_stripe_size := none,
            safekeeper_connstrings := ["x"], safekeepers_generation := some 3 },
        postgresql_conf := "conf" }
      (some { shard_count := ⟨1⟩, stripe_size := none, shards := [],
              prefer_protocol := PageserverProtocol.Libpq })
      none none).2.1 _ rfl rfl
  · exact (reconfigure_partial_update ComputeMode.Primary []
      { config_spec :=
          { cluster_postgresql_conf := none,
            pageserver_connection_info := none, shard_stripe_size := none,
            safekeeper_connstrings := ["x"], safekeepers_generation := some 3 },
        postgresql_conf := "conf" }
      none none none).2.2.1 rfl
      { cluster_postgresql_conf := some "conf",
        pageserver_connection_info := none, shard_stripe_size := none,
        safekeeper_connstrings := ["x"], safekeepers_generation := some 3 } rfl
  · exact (reconfigure_partial_update ComputeMode.Primary []
      { config_spec :=
          { cluster_postgresql_conf := none,
            pageserver_connection_info := none, shard_stripe_size := none,
            safekeeper_connstrings := ["x"], safekeepers_generation := some 3 },
        postgresql_conf := "conf" }
      none none none).2.2.2 rfl
      { cluster_postgresql_conf := some "conf",
        pageserver_connection_info := none, shard_stripe_size := none,
        safekeeper_connstrings := ["x"], safekeepers_generation := some 3 } rfl

/-- C9: for a `Primary` endpoint, each requested WAL-source node id is
mapped in request order to the address of its known node, and the call
fails if any id is absent from the known set; for any other mode the
result is the empty list regardless of the ids supplied. -/
theorem build_safekeepers_spec (env_safekeepers : List SafekeeperNode) :
    (∀ (mode : ComputeMode) (sk_ids : List Nat),
        mode ≠ ComputeMode.Primary →
        build_safekeepers_connstrs mode env_safekeepers sk_ids =
          Except.ok []) ∧
    (∀ sk_ids : List Nat,
        (∀ i ∈ sk_ids,
          (env_safekeepers.find? (fun node => decide (node.id = i))).isSome) →
        build_safekeepers_connstrs ComputeMode.Primary env_safekeepers sk_ids =
          Except.ok (sk_ids.map (fun i =>
            ((env_safekeepers.find? (fun node => decide (node.id = i))).map
              (fun sk => "127.0.0.1:" ++ toString sk.compute_port)).getD ""))) ∧
    (∀ sk_ids : List Nat,
        (∃ i ∈ sk_ids,
          env_safekeepers.find? (fun node => decide (node.id = i)) = none) →
        (build_safekeepers_connstrs ComputeMode.Primary env_safekeepers
          sk_ids).isOk = false) := by
  refine ⟨?_, ?_, ?_⟩
  · intro mode sk_ids h
    simp [build_safekeepers_connstrs, h]
  · intro sk_ids
    induction sk_ids with
    | nil => intro _; rfl
    | cons i rest ih =>
      intro hall
      have hi := hall i (by simp)
      obtain ⟨sk, hsk⟩ : ∃ sk,
          env_safekeepers.find? (fun node => decide (node.id = i)) = some sk := by
        cases hf : env_safekeepers.find? (fun node => decide (node.id = i)) with
        | none => rw [hf] at hi; simp at hi
        | some sk => exact ⟨sk, rfl⟩
      have hrest := ih (fun j hj => hall j (by simp [hj]))
      simp only [build_safekeepers_connstrs, if_pos] at hrest ⊢
      simp [safekeeperLoop, hsk, hrest]
  · intro sk_ids
    induction sk_ids with
    | nil => intro hex; simp at hex
    | cons i rest ih =>
      intro hex
      cases hf : env_safekeepers.find? (fun node => decide (node.id = i)) with
      | none =>
        simp [build_safekeepers_connstrs, safekeeperLoop, hf, Except.isOk,
              Except.toBool]
      | some sk =>
        have hexr : ∃ j ∈ rest,
            env_safekeepers.find? (fun node => decide (node.id = j)) = none := by
          obtain ⟨j, hj, hnj⟩ := hex
          rcases List.mem_cons.mp hj with rfl | hmem
          · rw [hf] at hnj; exact absurd hnj (by simp)
          · exact ⟨j, hmem, hnj⟩
        have hrest := ih hexr
        simp only [build_safekeepers_connstrs, if_pos] at hrest
        obtain ⟨e, he⟩ : ∃ e,
            safekeeperLoop env_safekeepers rest = Except.error e := by
          cases hl : safekeeperLoop env_safekeepers rest with
          | ok v => rw [hl] at hrest; simp [Except.isOk, Except.toBool] at hrest
          | error e => exact ⟨e, rfl⟩
        simp [build_safekeepers_connstrs, safekeeperLoop, hf, he, Except.isOk,
              Except.toBool]

/-- C9 witness: with one known safekeeper (id 1, port 5454), a `Replica`
endpoint ignores the requested ids; a `Primary` endpoint maps id 1 to
127.0.0.1:5454 and fails on the unknown id 2. -/
theorem build_safekeepers_spec_witness :
    build_safekeepers_connstrs ComputeMode.Replica
      [{ id := 1, compute_port := 5454 }] [99] = Except.ok [] ∧
    build_safekeepers_connstrs ComputeMode.Primary
      [{ id := 1, compute_port := 5454 }] [1] =
      Except.ok ["127.0.0.1:5454"] ∧
    (build_safekeepers_connstrs ComputeMode.Primary
      [{ id := 1, compute_port := 5454 }] [2]).isOk = false := by
  refine ⟨?_, ?_, ?_⟩
  · exact (build_safekeepers_spec [{ id := 1, compute_port := 5454 }]).1
      ComputeMode.Replica [99] (by decide)
  · have h := (build_safekeepers_spec [{ id := 1, compute_port := 5454 }]).2.1
      [1] (by decide)
    rw [h]; rfl
  · exact (build_safekeepers_spec [{ id := 1, compute_port := 5454 }]).2.2
      [2] (by decide)

/-- C10: a claims wire document whose subject-endpoint field is the empty
string deserializes exactly as if the field were absent, with a `none`
endpoint id; a non-empty subject-endpoint string that does not parse as a
UUID makes claims deserialization fail. -/
theorem claims_empty_endpoint_id (parse_uuid : String → Option Nat)
    (w : ClaimsWire) :
    (w.endpoint_id = some "" →
        deserializeClaims parse_uuid w =
          deserializeClaims parse_uuid { w with endpoint_id := none }) ∧
    (∀ c, w.endpoint_id = some "" →
        deserializeClaims parse_uuid w = Except.ok c → c.endpoint_id = none) ∧
    (∀ s, w.endpoint_id = some s → s ≠ "" → parse_uuid s = none →
        (deserializeClaims parse_uuid w).isOk = false) := by
  refine ⟨?_, ?_, ?_⟩
  · intro h
    cases hsc : w.scope with
    | none => simp [deserializeClaims, hsc]
    | some sc =>
      simp [deserializeClaims, hsc, deserialize_empty_string_as_none_uuid, h]
  · intro c h hok
    cases hsc : w.scope with
    | none => simp [deserializeClaims, hsc] at hok
    | some sc =>
      simp [deserializeClaims, hsc, deserialize_empty_string_as_none_uuid, h]
        at hok
      rw [← hok]
  · intro s hs hne hp
    cases hsc : w.scope with
    | none => simp [deserializeClaims, hsc, Except.isOk, Except.toBool]
    | some sc =>
      simp [deserializeClaims, hsc, deserialize_empty_string_as_none_uuid, hs,
            hne, hp, Except.isOk, Except.toBool]

/-- C10 witness: with a UUID parser rejecting everything, an empty
endpoint-id string deserializes like an absent field (endpoint id
`none`), and the non-empty non-UUID string "zz" fails deserialization. -/
theorem claims_empty_endpoint_id_witness :
    deserializeClaims (fun _ => none)
      { tenant_id := some 7, endpoint_id := some "", scope := some Scope.Tenant } =
      deserializeClaims (fun _ => none)
        { tenant_id := some 7, endpoint_id := none, scope := some Scope.Tenant } ∧
    (({ tenant_id := some 7, endpoint_id := none,
        scope := Scope.Tenant } : Claims).endpoint_id = none) ∧
    (deserializeClaims (fun _ => none)
      { tenant_id := none, endpoint_id := some "zz",
        scope := some Scope.Tenant }).isOk = false := by
  refine ⟨?_, ?_, ?_⟩
  · exact (claims_empty_endpoint_id (fun _ => none)
      { tenant_id := some 7, endpoint_id := some "",
        scope := some Scope.Tenant }).1 rfl
  · exact (claims_empty_endpoint_id (fun _ => none)
      { tenant_id := some 7, endpoint_id := some "",
        scope := some Scope.Tenant }).2.1
      { tenant_id := some 7, endpoint_id := none, scope := Scope.Tenant }
      rfl rfl
  · exact (claims_empty_endpoint_id (fun _ => none)
      { tenant_id := none, endpoint_id := some "zz",
        scope := some Scope.Tenant }).2.2 "zz" rfl (by decide) rfl

end Neon
